import Mathlib

/-!
Verification of the installation orchestration engine of pihole-wizard-web.

The embedding follows src/backend/api/install.py and
src/backend/core/ssh_manager.py.  Python strings are Lean String values;
substring tests and case folding are carried out on the underlying
character lists, since the source performs them with the in operator and
str.lower().  Effects of commands run through the gateway (docker info,
docker pull, ...) are supplied by an environment record: each field holds
the result the corresponding external command would produce.
-/

namespace PiholeWizard

/-! ## String helpers, modelling Python str operations -/

/-- Test whether pat occurs at the start of l (helper for substring search). -/
def subAt : List Char → List Char → Bool
  | [], _ => true
  | _ :: _, [] => false
  | a :: as, b :: bs => a = b && subAt as bs

/-- Test whether pat occurs anywhere inside l (Python: pat in s). -/
def hasSub (pat : List Char) : List Char → Bool
  | [] => subAt pat []
  | c :: cs => subAt pat (c :: cs) || hasSub pat cs

/-- Character data of s lowercased (Python: s.lower()). -/
def lowerData (s : String) : List Char := s.data.map Char.toLower

/-- Python: pat in s.lower(), the test used for the permission-denied signature. -/
def containsLower (s pat : String) : Bool := hasSub pat.data (lowerData s)

/-- Whitespace as stripped by Python str.strip(). -/
def isSpaceChar (c : Char) : Bool := c = ' ' || c = '\n' || c = '\t' || c = '\r'

/-- Character data of s with surrounding whitespace removed (Python: s.strip()). -/
def stripData (s : String) : List Char :=
  ((s.data.dropWhile isSpaceChar).reverse.dropWhile isSpaceChar).reverse

/-- Boolean test that a list of naturals is non-decreasing left to right. -/
def nondecreasing : List Nat → Bool
  | [] => true
  | [_] => true
  | a :: b :: rest => decide (a ≤ b) && nondecreasing (b :: rest)

/-! ## Data model (backend/models.py) -/

/-- InstallStatus from backend/models.py: the global installation state. -/
structure InstallStatus where
  status : String
  progress : Nat
  current_step : String
  error : Option String := none
deriving Repr, DecidableEq

/-- Result triple of a gateway command: (returncode, stdout, stderr). -/
structure CmdResult where
  returncode : Int
  stdout : String
  stderr : String
deriving Repr, DecidableEq

/-! ## start_installation (backend/api/install.py)

The handler is modelled as a pure function from the current global
InstallStatus and an environment describing the collaborators
(config generator, SSH connection, uploads) to the new InstallStatus, the
HTTP response, and the ordered list of external effects it performed. -/

/-- Response body of the start endpoint: an error dict or the started message. -/
inductive StartResponse
  | err (msg : String)
  | started
deriving Repr, DecidableEq

/-- One observable external action taken by start_installation, in program order. -/
inductive Effect
  | setStatusRunning
  | generateConfigs
  | mkdirRemote
  | uploadFile (filename : String)
  | saveLocal
  | incrementStarted
deriving Repr, DecidableEq

/-- Environment of start_installation: SSH connection state, the outcome of
generator.generate_all (filenames on success, exception text on failure),
and the outcome of each upload (none = success, some msg = failure). -/
structure StartEnv where
  connected : Bool
  genFiles : Except String (List String)
  uploadErr : String → Option String

/-- Upload loop of start_installation: uploads each generated file in order;
the first failing upload raises, aborting the loop. -/
def uploadLoop (env : StartEnv) : List String → List Effect × Option String
  | [] => ([], none)
  | f :: rest =>
    match env.uploadErr f with
    | some msg => ([Effect.uploadFile f], some ("Failed to upload " ++ f ++ ": " ++ msg))
    | none =>
      let r := uploadLoop env rest
      (Effect.uploadFile f :: r.1, r.2)

/-- The start endpoint (install.py, start_installation): busy check, state flip
to running, config generation, upload or local save, counter increment. -/
def start_installation (st : InstallStatus) (env : StartEnv) :
    InstallStatus × StartResponse × List Effect :=
  if st.status = "running" then
    (st, StartResponse.err "Installation already in progress", [])
  else
    let running : InstallStatus :=
      { status := "running", progress := 0, current_step := "Preparing...", error := none }
    match env.genFiles with
    | Except.error e =>
      ({ status := "failed", progress := 0, current_step := "Failed to generate configs",
         error := some e },
       StartResponse.err e,
       [Effect.setStatusRunning, Effect.generateConfigs])
    | Except.ok files =>
      if env.connected then
        let up := uploadLoop env files
        match up.2 with
        | some e =>
          ({ status := "failed", progress := 0, current_step := "Failed to generate configs",
             error := some e },
           StartResponse.err e,
           Effect.setStatusRunning :: Effect.generateConfigs :: Effect.mkdirRemote :: up.1)
        | none =>
          (running, StartResponse.started,
           Effect.setStatusRunning :: Effect.generateConfigs :: Effect.mkdirRemote ::
             up.1 ++ [Effect.incrementStarted])
      else
        (running, StartResponse.started,
         [Effect.setStatusRunning, Effect.generateConfigs, Effect.saveLocal,
          Effect.incrementStarted])

/-! ## The step executors (install.py, check_docker / pull_images /
start_containers / verify_installation)

Each executor is an async generator that yields log lines and may raise.
It is modelled as a StepOutcome: the lines yielded before returning or
raising, plus the exception text when it raised.  The GatewayEnv record
supplies the result of every external command an executor can issue. -/

/-- Lines yielded by a step executor and the exception it raised, if any. -/
structure StepOutcome where
  lines : List String
  error : Option String
deriving Repr, DecidableEq

/-- Environment of a pipeline run: the result each external command would
produce, for the remote (SSH) and the local (subprocess) transport. -/
structure GatewayEnv where
  /-- remote: docker info 2>&1 via run_command -/
  dockerInfoRemote : CmdResult
  /-- remote: streamed lines of docker pull for the given image -/
  pullStreamRemote : String → List String
  /-- remote: docker image inspect for the given image -/
  imageInspectRemote : String → CmdResult
  /-- remote: docker compose version 2>&1 (compose v2 probe) -/
  composeProbeRemote : CmdResult
  /-- remote: streamed lines of the compose up invocation, keyed by the command form used -/
  composeUpStreamRemote : String → List String
  /-- remote: docker ps filtered by the two service names -/
  dockerPsRemote : CmdResult
  /-- remote: docker inspect of the running flag of the pihole container -/
  inspectPiholeRemote : CmdResult
  /-- local: docker info subprocess -/
  dockerInfoLocal : CmdResult
  /-- local: streamed lines of docker pull for the given image -/
  pullStreamLocal : String → List String
  /-- local: exit code of docker pull for the given image -/
  pullRcLocal : String → Int
  /-- local: exit code of the compose v2 version probe -/
  composeProbeRcLocal : Int
  /-- local: streamed lines of the compose up invocation -/
  composeUpStreamLocal : List String
  /-- local: exit code of the compose up invocation -/
  composeUpRcLocal : Int
  /-- local: streamed lines of the filtered docker ps -/
  dockerPsStreamLocal : List String
  /-- local: docker inspect of the running flag of the pihole container -/
  inspectPiholeLocal : CmdResult

/-- The remediation message raised by check_docker on a permission-denied
signature. -/
def permDeniedMsg : String :=
  "Docker permission denied. Run: sudo usermod -aG docker $USER && newgrp docker"

/-- Step 1, check_docker: verifies the docker daemon is reachable; on the
remote path a permission-denied signature in the captured output is turned
into the remediation message. -/
def check_docker (env : GatewayEnv) (is_remote : Bool) : StepOutcome :=
  if is_remote then
    if env.dockerInfoRemote.returncode ≠ 0 then
      if containsLower (env.dockerInfoRemote.stdout ++ env.dockerInfoRemote.stderr)
          "permission denied" then
        { lines := [], error := some permDeniedMsg }
      else
        { lines := [], error := some "Docker is not running on the remote Pi." }
    else
      { lines := ["Docker is running on remote Pi.\n"], error := none }
  else
    if env.dockerInfoLocal.returncode ≠ 0 then
      { lines := [], error := some "Docker is not running. Please start Docker and try again." }
    else
      { lines := ["Docker is running.\n"], error := none }

/-- The fixed list of required images in pull_images. -/
def requiredImages : List String := ["pihole/pihole:latest", "mvance/unbound:latest"]

/-- Loop body of pull_images over the image list: pulls sequentially, aborts
on the first failure. -/
def pullLoop (env : GatewayEnv) (is_remote : Bool) : List String → StepOutcome
  | [] => { lines := [], error := none }
  | image :: rest =>
    let pre := "Pulling " ++ image ++ "...\n"
    if is_remote then
      let streamed := env.pullStreamRemote image
      if (env.imageInspectRemote image).returncode ≠ 0 then
        { lines := pre :: streamed, error := some ("Failed to pull " ++ image) }
      else
        let r := pullLoop env is_remote rest
        { lines := pre :: streamed ++ ("Pulled " ++ image ++ "\n") :: r.lines, error := r.error }
    else
      let streamed := env.pullStreamLocal image
      if env.pullRcLocal image ≠ 0 then
        { lines := pre :: streamed, error := some ("Failed to pull " ++ image) }
      else
        let r := pullLoop env is_remote rest
        { lines := pre :: streamed ++ ("Pulled " ++ image ++ "\n") :: r.lines, error := r.error }

/-- Step 2, pull_images: pulls the fixed image list sequentially. -/
def pull_images (env : GatewayEnv) (is_remote : Bool) : StepOutcome :=
  pullLoop env is_remote requiredImages

/-- Step 3, start_containers: probes for compose v2, falls back to the legacy
form, runs compose up.  The remote path performs no exit-code check; the
local path raises on a non-zero exit. -/
def start_containers (env : GatewayEnv) (is_remote : Bool) : StepOutcome :=
  let header := "Running docker compose up -d...\n"
  if is_remote then
    let composeCmd :=
      if env.composeProbeRemote.returncode = 0 then "docker compose" else "docker-compose"
    { lines := header :: env.composeUpStreamRemote composeCmd ++ ["Containers started.\n"],
      error := none }
  else
    if env.composeUpRcLocal ≠ 0 then
      { lines := header :: env.composeUpStreamLocal,
        error := some "Failed to start containers" }
    else
      { lines := header :: env.composeUpStreamLocal ++ ["Containers started.\n"],
        error := none }

/-- Step 4, verify_installation: after the settle delay, lists the filtered
containers and asserts the pihole container reports Running = true. -/
def verify_installation (env : GatewayEnv) (is_remote : Bool) : StepOutcome :=
  let header := "Checking container status...\n"
  if is_remote then
    let psLine := env.dockerPsRemote.stdout ++ "\n"
    if stripData env.inspectPiholeRemote.stdout ≠ "true".data then
      { lines := [header, psLine], error := some "Pi-hole container is not running" }
    else
      { lines := [header, psLine, "\nPi-hole is running!\n"], error := none }
  else
    if stripData env.inspectPiholeLocal.stdout ≠ "true".data then
      { lines := header :: env.dockerPsStreamLocal,
        error := some "Pi-hole container is not running" }
    else
      { lines := header :: env.dockerPsStreamLocal ++ ["\nPi-hole is running!\n"],
        error := none }

/-! ## The pipeline driver (install.py, run_installation) -/

/-- The fixed step table of run_installation: name, checkpoint, executor. -/
def installSteps : List (String × Nat × (GatewayEnv → Bool → StepOutcome)) :=
  [("Checking Docker...", 10, check_docker),
   ("Pulling Docker images...", 40, pull_images),
   ("Starting containers...", 70, start_containers),
   ("Verifying installation...", 90, verify_installation)]

/-- Result of a pipeline run: the final InstallStatus, the yielded log lines,
and the successive values assigned to progress. -/
structure RunResult where
  final : InstallStatus
  logs : List String
  progressTrace : List Nat
deriving Repr, DecidableEq

/-- The step-entry marker line yielded by run_installation. -/
def stepMarker (name : String) : String := "\n=== " ++ name ++ " ===\n"

/-- Driver loop of run_installation over the remaining steps: set
current_step and progress to the checkpoint, yield the step marker, run the
executor; an exception aborts the run with status failed and progress frozen;
after the last step the state becomes success with progress 100. -/
def runSteps (env : GatewayEnv) (is_remote : Bool) (st : InstallStatus) :
    List (String × Nat × (GatewayEnv → Bool → StepOutcome)) →
    InstallStatus × List String × List Nat
  | [] =>
    ({ status := "success", progress := 100, current_step := "Complete!", error := none },
     ["\n=== Installation Complete! ===\n"], [100])
  | (name, ckpt, executor) :: rest =>
    let st1 : InstallStatus := { st with current_step := name, progress := ckpt }
    let out := executor env is_remote
    match out.error with
    | some e =>
      ({ status := "failed", progress := st1.progress, current_step := "Failed",
         error := some e },
       stepMarker name :: out.lines ++ ["\nERROR: " ++ e ++ "\n"],
       [ckpt])
    | none =>
      let r := runSteps env is_remote st1 rest
      (r.1, stepMarker name :: out.lines ++ r.2.1, ckpt :: r.2.2)

/-- The global state as set by start_installation just before a run. -/
def startedState : InstallStatus :=
  { status := "running", progress := 0, current_step := "Preparing...", error := none }

/-- run_installation: drives the step table from the state left by
start_installation; the progress trace starts at that progress value. -/
def run_installation (env : GatewayEnv) (is_remote : Bool) : RunResult :=
  let r := runSteps env is_remote startedState installSteps
  { final := r.1, logs := r.2.1, progressTrace := startedState.progress :: r.2.2 }

/-! ## The streaming endpoint (install.py, install_websocket) -/

/-- Event sent over the streaming subscription, as the handler frames it. -/
inductive Event
  | log (msg : String)
  | complete (status : String) (msg : Option String)
  | error (msg : String)
deriving Repr, DecidableEq

/-- Observable behaviour of one subscriber attachment: whether the handler is
still in its idle wait loop, whether it drove an execution of
run_installation itself, and the events it sent. -/
structure WsOutcome where
  waiting : Bool
  ranPipeline : Bool
  events : List Event
deriving Repr, DecidableEq

/-- install_websocket for a subscriber observing status s after accept: waits
while idle; sends a single error event when s is neither idle nor running;
otherwise iterates run_installation itself, forwarding each log line, then
sends the single complete event. -/
def install_websocket (s : String) (env : GatewayEnv) (is_remote : Bool) : WsOutcome :=
  if s = "idle" then
    { waiting := true, ranPipeline := false, events := [] }
  else if s ≠ "running" then
    { waiting := false, ranPipeline := false,
      events := [Event.error "Installation not started"] }
  else
    let r := run_installation env is_remote
    { waiting := false, ranPipeline := true,
      events := r.logs.map Event.log ++
        [Event.complete r.final.status
          (if r.final.status = "success" then some "Installation complete!"
           else r.final.error)] }

/-- Number of run_installation executions driven by a list of subscribers,
each observing the given status when it attaches. -/
def pipelineRunsDriven (observed : List String) (env : GatewayEnv) (is_remote : Bool) : Nat :=
  (observed.filter (fun s => (install_websocket s env is_remote).ranPipeline)).length

/-! ## The remote execution gateway (backend/core/ssh_manager.py) -/

/-- Platform identity markers read by is_running_on_pi.  A field holding none
models an open or read that raises (the except branches swallow it). -/
structure PiEnv where
  arch : String
  cpuinfo : Option String
  deviceModel : Option String
  osRelease : Option String

/-- Python: any of the markers occurs in the lowercased file content; a
failed read (none) yields false, matching the except-pass branches. -/
def markerHit (content : Option String) (markers : List String) : Bool :=
  match content with
  | none => false
  | some s => markers.any (fun m => hasSub m.data (lowerData s))

/-- SSHManager.is_running_on_pi as a function of the cached flag and the
platform environment; returns the boolean result and the new cache.  Every
non-cached path ends by writing the cache. -/
def is_running_on_pi (cache : Option Bool) (env : PiEnv) : Bool × Option Bool :=
  match cache with
  | some v => (v, some v)
  | none =>
    if !(["aarch64", "armv7l", "armv6l", "arm64"].contains
          (String.mk (lowerData env.arch))) then
      (false, some false)
    else if markerHit env.cpuinfo ["raspberry", "bcm"] then
      (true, some true)
    else if markerHit env.deviceModel ["raspberry"] then
      (true, some true)
    else if markerHit env.osRelease ["raspbian", "raspberry"] then
      (true, some true)
    else
      (false, some false)

/-- Environment of one run_command / run_command_stream call: the dispatch
state of the manager and the result the command would produce on each
transport. -/
structure RunCmdEnv where
  /-- value of is_running_on_pi() at call time -/
  isLocal : Bool
  /-- value of is_connected() at call time -/
  connected : Bool
  /-- result of the local subprocess -/
  localResult : CmdResult
  /-- result of the remote exec -/
  remoteResult : CmdResult

/-- SSHManager.run_command: local subprocess when on a Pi; otherwise requires
an active connection and raises without one; with check=True a non-zero
remote exit raises (asyncssh ProcessError), with the default check=False it
is returned as data. -/
def run_command (env : RunCmdEnv) (check : Bool) : Except String CmdResult :=
  if env.isLocal then
    Except.ok env.localResult
  else if !env.connected then
    Except.error "Not connected to remote Pi"
  else if check && env.remoteResult.returncode ≠ 0 then
    Except.error "remote command returned non-zero exit status"
  else
    Except.ok env.remoteResult

/-- Output of the underlying process in production order: each line tagged
with whether it was written to stderr. -/
def TaggedLines := List (Bool × String)

/-- SSHManager.run_command_stream: on the local path stderr is redirected
into stdout (untagged merge in production order); on the remote path the
stdout channel is drained first, then the stderr channel with every line
prefixed by the stderr tag; without a connection it raises. -/
def run_command_stream (env : RunCmdEnv) (prod : List (Bool × String)) :
    Except String (List String) :=
  if env.isLocal then
    Except.ok (prod.map Prod.snd)
  else if !env.connected then
    Except.error "Not connected to remote Pi"
  else
    Except.ok ((prod.filter (fun p => !p.1)).map Prod.snd ++
      (prod.filter (fun p => p.1)).map (fun p => "[stderr] " ++ p.2))

/-- Modelled from the spec: the runStreaming contract sentence, with stderr
lines interleaved into the sequence in production order and tagged as
stderr.  Stated only to compare against run_command_stream. -/
def runStreamingSpec (prod : List (Bool × String)) : List String :=
  prod.map (fun p => if p.1 then "[stderr] " ++ p.2 else p.2)

/-! ## Concrete environments used to evaluate the development -/

/-- A gateway environment in which every external command succeeds. -/
def envAllOk : GatewayEnv :=
  { dockerInfoRemote := ⟨0, "", ""⟩
    pullStreamRemote := fun _ => []
    imageInspectRemote := fun _ => ⟨0, "", ""⟩
    composeProbeRemote := ⟨0, "", ""⟩
    composeUpStreamRemote := fun _ => []
    dockerPsRemote := ⟨0, "", ""⟩
    inspectPiholeRemote := ⟨0, "true\n", ""⟩
    dockerInfoLocal := ⟨0, "", ""⟩
    pullStreamLocal := fun _ => []
    pullRcLocal := fun _ => 0
    composeProbeRcLocal := 0
    composeUpStreamLocal := []
    composeUpRcLocal := 0
    dockerPsStreamLocal := []
    inspectPiholeLocal := ⟨0, "true\n", ""⟩ }

/-- Like envAllOk but the remote inspect of the first pulled image fails. -/
def envPullFail : GatewayEnv :=
  { envAllOk with imageInspectRemote := fun _ => ⟨1, "", "no such image"⟩ }

/-- Like envAllOk but the remote docker info fails with a permission-denied
signature in mixed case. -/
def envPermDenied : GatewayEnv :=
  { envAllOk with dockerInfoRemote := ⟨1, "Got: Permission Denied while connecting", ""⟩ }

/-- A mid-run global state as left by the pipeline driver. -/
def busySt : InstallStatus :=
  { status := "running", progress := 40, current_step := "Pulling Docker images...", error := none }

/-- The idle state the process starts in. -/
def idleSt : InstallStatus :=
  { status := "idle", progress := 0, current_step := "", error := none }

/-- A start environment: connected over SSH, one generated file, uploads succeed. -/
def envStartOk : StartEnv :=
  { connected := true, genFiles := Except.ok ["docker-compose.yml"], uploadErr := fun _ => none }

/-- A manager state with no local target and no active session. -/
def envNoSession : RunCmdEnv :=
  { isLocal := false, connected := false, localResult := ⟨0, "", ""⟩,
    remoteResult := ⟨5, "out", "err"⟩ }

/-- A manager state executing remotely over an active session. -/
def envRemoteConn : RunCmdEnv :=
  { isLocal := false, connected := true, localResult := ⟨0, "", ""⟩,
    remoteResult := ⟨5, "out", "err"⟩ }

/-- A manager state executing on the local machine. -/
def envLocalRun : RunCmdEnv :=
  { isLocal := true, connected := false, localResult := ⟨0, "", ""⟩,
    remoteResult := ⟨0, "", ""⟩ }

/-- A production trace in which a stderr line is emitted before a stdout line. -/
def prodMix : List (Bool × String) := [(true, "e1\n"), (false, "o1\n")]

/-! ## C1: busy start is rejected without mutation -/

/-- C1: if InstallState.status is running when start is called, the call
returns the busy error response, performs no effect, and leaves the
InstallState unchanged. -/
theorem start_busy_rejected (st : InstallStatus) (env : StartEnv)
    (h : st.status = "running") :
    start_installation st env =
      (st, StartResponse.err "Installation already in progress", []) := by
  simp [start_installation, h]

/-- Witness for C1 at a concrete mid-run state. -/
theorem start_busy_rejected_witness :
    busySt.status = "running" ∧
    start_installation busySt envStartOk =
      (busySt, StartResponse.err "Installation already in progress", []) :=
  ⟨rfl, start_busy_rejected busySt envStartOk rfl⟩

/-! ## C9: the local-target probe is cached and idempotent -/

/-- The first call of is_running_on_pi writes the value it returns into the
cache: every branch of the detection ends in (v, some v). -/
theorem is_running_on_pi_first_shape (env : PiEnv) :
    ∃ v, is_running_on_pi none env = (v, some v) := by
  unfold is_running_on_pi
  repeat' split
  all_goals exact ⟨_, rfl⟩

/-- C9: is_running_on_pi is idempotent across the process: a second call,
even against a changed platform environment, returns exactly the result of
the first call, because the first call cached it. -/
theorem is_running_on_pi_idempotent (env1 env2 : PiEnv) :
    is_running_on_pi (is_running_on_pi none env1).2 env2 = is_running_on_pi none env1 := by
  obtain ⟨v, hv⟩ := is_running_on_pi_first_shape env1
  rw [hv]
  rfl

/-! ## C8: run_command returns failures as data; no session is an error -/

/-- C8: with the default check=False, run_command can only raise for the
missing-session contract violation, never for a non-zero exit: any raised
error implies no local target and no connection, in which case the error is
exactly the contract-violation message; with an active remote session the
command result is returned as data whatever its exit code. -/
theorem run_command_failure_as_data (env : RunCmdEnv) :
    (env.isLocal = false → env.connected = false →
      run_command env false = Except.error "Not connected to remote Pi") ∧
    (∀ e, run_command env false = Except.error e →
      env.isLocal = false ∧ env.connected = false) ∧
    (env.isLocal = false → env.connected = true →
      run_command env false = Except.ok env.remoteResult) := by
  refine ⟨fun h1 h2 => by simp [run_command, h1, h2], fun e he => ?_, fun h1 h2 => by
    simp [run_command, h1, h2]⟩
  by_cases hl : env.isLocal
  · simp [run_command, hl] at he
  · by_cases hc : env.connected
    · simp [run_command, hl, hc] at he
    · exact ⟨by simp [hl], by simp [hc]⟩

/-- Witness for C8: without a session the call raises the contract violation;
with a session a command exiting 5 is returned as data. -/
theorem run_command_failure_as_data_witness :
    run_command envNoSession false = Except.error "Not connected to remote Pi" ∧
    run_command envRemoteConn false = Except.ok envRemoteConn.remoteResult ∧
    (envNoSession.isLocal = false ∧ envNoSession.connected = false) :=
  ⟨(run_command_failure_as_data envNoSession).1 rfl rfl,
   (run_command_failure_as_data envRemoteConn).2.2 rfl rfl,
   (run_command_failure_as_data envNoSession).2.1 "Not connected to remote Pi"
     ((run_command_failure_as_data envNoSession).1 rfl rfl)⟩

/-! ## C10: a subscriber attaching in a terminal state gets one error event -/

/-- C10: a streaming subscriber that attaches while the status is terminal
(success or failed) receives exactly the single error event with message
Installation not started, drives no pipeline, and gets no log or complete
event. -/
theorem ws_terminal_attach_single_error (s : String) (env : GatewayEnv) (r : Bool)
    (h : s = "success" ∨ s = "failed") :
    install_websocket s env r =
      { waiting := false, ranPipeline := false,
        events := [Event.error "Installation not started"] } := by
  rcases h with h | h <;> subst h <;> simp [install_websocket]

/-- Witness for C10 at status success against the all-success environment. -/
theorem ws_terminal_attach_single_error_witness :
    install_websocket "success" envAllOk true =
      { waiting := false, ranPipeline := false,
        events := [Event.error "Installation not started"] } :=
  ws_terminal_attach_single_error "success" envAllOk true (Or.inl rfl)

/-! ## C4: streaming is not interleaved; what does hold -/

/-- C4 counterexample: for a process that writes one stderr line before one
stdout line, the remote stream emits the stdout line first and only then the
tagged stderr line, not the production-order interleaving the claim states;
on the local path the stderr line is merged untagged. -/
theorem run_stream_not_interleaved :
    run_command_stream envRemoteConn prodMix = Except.ok ["o1\n", "[stderr] e1\n"] ∧
    runStreamingSpec prodMix = ["[stderr] e1\n", "o1\n"] ∧
    (["o1\n", "[stderr] e1\n"] : List String) ≠ runStreamingSpec prodMix ∧
    run_command_stream envLocalRun prodMix = Except.ok ["e1\n", "o1\n"] := by
  refine ⟨rfl, rfl, by decide, rfl⟩

/-- C4 amended: run_command_stream yields a finite sequence that terminates
when the channels close; on a local target stderr is merged into stdout in
production order but untagged; on a remote target with a session the stdout
lines are all emitted first in production order, then every stderr line
tagged with the stderr prefix, so the emitted lines are a permutation of the
tagged production-order interleaving, not that interleaving itself. -/
theorem run_stream_ordering (env : RunCmdEnv) (prod : List (Bool × String)) :
    (env.isLocal = true → run_command_stream env prod = Except.ok (prod.map Prod.snd)) ∧
    (env.isLocal = false → env.connected = true →
      ∃ out, run_command_stream env prod = Except.ok out ∧
        out = (prod.filter (fun p => !p.1)).map Prod.snd ++
          (prod.filter (fun p => p.1)).map (fun p => "[stderr] " ++ p.2) ∧
        out.Perm (runStreamingSpec prod)) := by
  constructor
  · intro h
    simp [run_command_stream, h]
  · intro h1 h2
    have hrun : run_command_stream env prod =
        Except.ok ((prod.filter (fun p => !p.1)).map Prod.snd ++
          (prod.filter (fun p => p.1)).map (fun p => "[stderr] " ++ p.2)) := by
      simp [run_command_stream, h1, h2]
    refine ⟨_, hrun, rfl, ?_⟩
    unfold runStreamingSpec
    have hA : (prod.filter (fun p => !p.1)).map Prod.snd
        = (prod.filter (fun p => !p.1)).map
            (fun p => if p.1 then "[stderr] " ++ p.2 else p.2) := by
      apply List.map_congr_left
      intro a ha
      have hmem := List.of_mem_filter ha
      simp at hmem
      simp [hmem]
    have hB : (prod.filter (fun p => p.1)).map (fun p => "[stderr] " ++ p.2)
        = (prod.filter (fun p => p.1)).map
            (fun p => if p.1 then "[stderr] " ++ p.2 else p.2) := by
      apply List.map_congr_left
      intro a ha
      have hmem := List.of_mem_filter ha
      simp [hmem]
    rw [hA, hB, ← List.map_append]
    apply List.Perm.map
    have hp := List.filter_append_perm (fun p : Bool × String => !p.1) prod
    simpa using hp

/-- Witness for the amended C4 on both transports at the mixed trace. -/
theorem run_stream_ordering_witness :
    run_command_stream envLocalRun prodMix = Except.ok (prodMix.map Prod.snd) ∧
    (∃ out, run_command_stream envRemoteConn prodMix = Except.ok out ∧
      out = (prodMix.filter (fun p => !p.1)).map Prod.snd ++
        (prodMix.filter (fun p => p.1)).map (fun p => "[stderr] " ++ p.2) ∧
      out.Perm (runStreamingSpec prodMix)) :=
  ⟨(run_stream_ordering envLocalRun prodMix).1 rfl,
   (run_stream_ordering envRemoteConn prodMix).2 rfl rfl⟩

/-! ## C2: what start actually does before returning -/

/-- C2 counterexample: starting from idle with an active SSH session and a
successful generation, the first effect of start_installation is the status
flip to running; the upload happens after it, and no effect launches the
pipeline (the effect list is exhaustive), contradicting the claimed
persist-then-flip-then-launch order. -/
theorem start_flips_before_persisting :
    idleSt.status ≠ "running" ∧
    (start_installation idleSt envStartOk).2.2 =
      [Effect.setStatusRunning, Effect.generateConfigs, Effect.mkdirRemote,
       Effect.uploadFile "docker-compose.yml", Effect.incrementStarted] ∧
    (start_installation idleSt envStartOk).2.2.head? ≠
      some (Effect.uploadFile "docker-compose.yml") := by
  decide

/-- Observable behaviour of the subscriber handler: it drives a pipeline
execution exactly when it observes status running. -/
theorem ws_ran_iff (s : String) (env : GatewayEnv) (r : Bool) :
    (install_websocket s env r).ranPipeline = (s == "running") := by
  by_cases h1 : s = "idle"
  · subst h1
    simp [install_websocket]
  · by_cases h2 : s = "running"
    · subst h2
      simp [install_websocket]
    · simp [install_websocket, h1, h2]

/-- C2 amended: when status is not running, start first sets status=running
(its first two effects are the status flip and then the config generation,
with persisting or uploading after those), and start never launches the
pipeline itself: run_installation is executed by the websocket handler, and
only for a subscriber that observes status running. -/
theorem start_sets_running_then_persists (st : InstallStatus) (env : StartEnv)
    (h : st.status ≠ "running") :
    (∃ rest, (start_installation st env).2.2 =
      Effect.setStatusRunning :: Effect.generateConfigs :: rest) ∧
    (∀ s genv r, (install_websocket s genv r).ranPipeline = true ↔ s = "running") := by
  constructor
  · unfold start_installation
    rw [if_neg h]
    dsimp only
    split
    · exact ⟨_, rfl⟩
    · split
      · split
        · exact ⟨_, rfl⟩
        · exact ⟨_, rfl⟩
      · exact ⟨_, rfl⟩
  · intro s genv r
    rw [ws_ran_iff]
    simp

/-- Witness for the amended C2 at the idle state with an SSH session. -/
theorem start_sets_running_then_persists_witness :
    ∃ rest, (start_installation idleSt envStartOk).2.2 =
      Effect.setStatusRunning :: Effect.generateConfigs :: rest :=
  (start_sets_running_then_persists idleSt envStartOk (by decide)).1

/-! ## C3: one pipeline execution per subscriber, not per process -/

/-- C3 counterexample: two subscribers both attaching while status is running
drive two executions of run_installation in the same process, violating the
claimed at-most-one bound. -/
theorem two_subscribers_two_runs :
    pipelineRunsDriven ["running", "running"] envAllOk true = 2 ∧
    ¬ pipelineRunsDriven ["running", "running"] envAllOk true ≤ 1 := by
  constructor
  · rfl
  · decide

/-- C3 amended: nothing bounds concurrent pipeline executions by one; each
subscriber that attaches while status is running drives its own execution of
run_installation, so the number of executions equals the number of such
subscribers. -/
theorem pipeline_runs_count (observed : List String) (env : GatewayEnv) (r : Bool) :
    pipelineRunsDriven observed env r = observed.count "running" ∧
    (∀ s, (install_websocket s env r).ranPipeline = true ↔ s = "running") := by
  constructor
  · unfold pipelineRunsDriven
    rw [List.count, List.countP_eq_length_filter]
    congr 1
    apply List.filter_congr
    intro a _
    exact ws_ran_iff a env r
  · intro s
    rw [ws_ran_iff]
    simp

/-! ## C5: progress is monotone and reaches 100 exactly on success -/

/-- Driver loop invariant: if the remaining checkpoints are non-decreasing
from the current progress and bounded by 100, the progress assignments of
the rest of the run are non-decreasing. -/
theorem runSteps_trace_nondecreasing (env : GatewayEnv) (r : Bool)
    (ss : List (String × Nat × (GatewayEnv → Bool → StepOutcome))) :
    ∀ st : InstallStatus,
      nondecreasing (st.progress :: ss.map (fun x => x.2.1)) = true →
      (∀ c ∈ ss.map (fun x => x.2.1), c ≤ 100) →
      st.progress ≤ 100 →
      nondecreasing (st.progress :: (runSteps env r st ss).2.2) = true := by
  induction ss with
  | nil =>
    intro st _ _ h3
    simp [runSteps, nondecreasing, h3]
  | cons hd tl ih =>
    obtain ⟨name, ckpt, f⟩ := hd
    intro st h1 h2 h3
    simp only [nondecreasing, List.map_cons, Bool.and_eq_true, decide_eq_true_eq] at h1
    simp only [runSteps]
    split
    · simp [nondecreasing, h1.1]
    · have hrec := ih { st with current_step := name, progress := ckpt } (by
        simpa [nondecreasing] using h1.2)
        (fun c hc => h2 c (by rw [List.map_cons]; exact List.mem_cons_of_mem _ hc))
        (h2 ckpt (by rw [List.map_cons]; exact List.mem_cons_self _ _))
      simp only [nondecreasing, Bool.and_eq_true, decide_eq_true_eq]
      exact ⟨h1.1, by simpa [nondecreasing] using hrec⟩

/-- Driver loop invariant: when no remaining checkpoint equals 100, the final
progress is 100 exactly when the final status is success. -/
theorem runSteps_final_progress_iff (env : GatewayEnv) (r : Bool)
    (ss : List (String × Nat × (GatewayEnv → Bool → StepOutcome))) :
    ∀ st : InstallStatus,
      (∀ c ∈ ss.map (fun x => x.2.1), c ≠ 100) →
      ((runSteps env r st ss).1.progress = 100 ↔
        (runSteps env r st ss).1.status = "success") := by
  induction ss with
  | nil =>
    intro st _
    simp [runSteps]
  | cons hd tl ih =>
    obtain ⟨name, ckpt, f⟩ := hd
    intro st h
    have hne : ckpt ≠ 100 := h ckpt (by rw [List.map_cons]; exact List.mem_cons_self _ _)
    simp only [runSteps]
    split
    · simp [hne]
    · exact ih _ (fun c hc => h c (by rw [List.map_cons]; exact List.mem_cons_of_mem _ hc))

/-- C5: for every run of the pipeline, in any environment and on either
transport, the successive values of InstallState.progress are monotonically
non-decreasing from the start of the run, and the final progress equals 100
exactly when the final status is success. -/
theorem run_progress_monotone_100_iff_success (env : GatewayEnv) (r : Bool) :
    nondecreasing (run_installation env r).progressTrace = true ∧
    ((run_installation env r).final.progress = 100 ↔
      (run_installation env r).final.status = "success") := by
  constructor
  · have h := runSteps_trace_nondecreasing env r installSteps startedState
      (by decide) (by decide) (by decide)
    simpa [run_installation] using h
  · have h := runSteps_final_progress_iff env r installSteps startedState (by decide)
    simpa [run_installation] using h

/-! ## C6: a pull failure stops the run at checkpoint 40 -/

/-- C6: if the runtime check passes and the image-pull step raises, the run
ends failed with progress frozen at 40 and the error recorded, and the log
stream consists exactly of the two entered step markers, the lines those two
steps yielded, and the terminal error line: the container-start and
verification steps contribute nothing. -/
theorem pull_failure_aborts_run (env : GatewayEnv) (r : Bool) (e : String)
    (h1 : (check_docker env r).error = none)
    (h2 : (pull_images env r).error = some e) :
    (run_installation env r).final =
      { status := "failed", progress := 40, current_step := "Failed", error := some e } ∧
    (run_installation env r).logs =
      stepMarker "Checking Docker..." :: (check_docker env r).lines ++
        stepMarker "Pulling Docker images..." :: (pull_images env r).lines ++
        ["\nERROR: " ++ e ++ "\n"] := by
  unfold run_installation installSteps
  simp only [runSteps, h1, h2]
  simp

/-- Witness for C6: remote environment whose image inspect fails for the
first required image. -/
theorem pull_failure_aborts_run_witness :
    (check_docker envPullFail true).error = none ∧
    (pull_images envPullFail true).error = some "Failed to pull pihole/pihole:latest" ∧
    (run_installation envPullFail true).final =
      { status := "failed", progress := 40, current_step := "Failed",
        error := some "Failed to pull pihole/pihole:latest" } ∧
    (run_installation envPullFail true).logs =
      stepMarker "Checking Docker..." :: (check_docker envPullFail true).lines ++
        stepMarker "Pulling Docker images..." :: (pull_images envPullFail true).lines ++
        ["\nERROR: " ++ "Failed to pull pihole/pihole:latest" ++ "\n"] :=
  ⟨rfl, rfl,
   (pull_failure_aborts_run envPullFail true _ rfl rfl).1,
   (pull_failure_aborts_run envPullFail true _ rfl rfl).2⟩

/-! ## C7: a remote permission-denied signature aborts step 1 actionably -/

/-- C7: on the remote transport, if the docker info probe exits non-zero and
its captured output contains the permission-denied signature after case
folding, the run aborts at step 1 with progress frozen at 10, the recorded
error is the remediation message, and that message contains the remediation
command text. -/
theorem perm_denied_actionable (env : GatewayEnv)
    (h1 : env.dockerInfoRemote.returncode ≠ 0)
    (h2 : containsLower (env.dockerInfoRemote.stdout ++ env.dockerInfoRemote.stderr)
        "permission denied" = true) :
    (run_installation env true).final =
      { status := "failed", progress := 10, current_step := "Failed",
        error := some permDeniedMsg } ∧
    (run_installation env true).logs =
      [stepMarker "Checking Docker...", "\nERROR: " ++ permDeniedMsg ++ "\n"] ∧
    hasSub "sudo usermod -aG docker $USER && newgrp docker".data permDeniedMsg.data
      = true := by
  have hcd : check_docker env true = { lines := [], error := some permDeniedMsg } := by
    simp [check_docker, h1, h2]
  refine ⟨?_, ?_, by decide⟩
  · unfold run_installation installSteps
    simp only [runSteps, hcd]
  · unfold run_installation installSteps
    simp only [runSteps, hcd]
    simp

/-- Witness for C7: remote docker info exits 1 with a mixed-case
permission-denied signature in its output. -/
theorem perm_denied_actionable_witness :
    envPermDenied.dockerInfoRemote.returncode ≠ 0 ∧
    containsLower (envPermDenied.dockerInfoRemote.stdout ++
      envPermDenied.dockerInfoRemote.stderr) "permission denied" = true ∧
    (run_installation envPermDenied true).final =
      { status := "failed", progress := 10, current_step := "Failed",
        error := some permDeniedMsg } ∧
    hasSub "sudo usermod -aG docker $USER && newgrp docker".data permDeniedMsg.data
      = true :=
  ⟨by decide, by decide,
   (perm_denied_actionable envPermDenied (by decide) (by decide)).1,
   (perm_denied_actionable envPermDenied (by decide) (by decide)).2.2⟩

end PiholeWizard
